import Mathlib

/-!
Shallow embedding of src/tux/cogs/services/bookmarks.py: the Bookmarks cog
handling raw reaction-added events (bookmark a message via DM, remove a
bookmark by deleting the bot-authored message).

External effects (cache lookups, network calls, logging) are modeled by an
explicit environment `World` giving the outcome of each call, and the
handler returns the list of observable steps it performed together with
either a normal return or an uncaught exception.
-/

namespace TuxBookmarks

/-- Python strings are modeled as lists of characters. -/
abbrev Str := List Char

/-- Model of a Discord user object (only the inspected attributes). -/
structure User where
  id : Nat
  name : Str
  mention : Str
deriving DecidableEq, Repr

/-- Model of a message attachment; only its URL is used. -/
structure Attachment where
  url : Str
deriving DecidableEq, Repr

/-- Model of a Discord message (only the inspected attributes). -/
structure Message where
  id : Nat
  content : Str
  author : User
  jumpUrl : Str
  attachments : List Attachment
  channelId : Nat
deriving DecidableEq, Repr

/-- Model of a Discord channel; only its identity matters here. -/
structure Channel where
  id : Nat
deriving DecidableEq, Repr

/-- Model of discord.PartialEmoji: only its name is inspected. -/
structure PartialEmoji where
  name : Str
deriving DecidableEq, Repr

/-- Model of discord.RawReactionActionEvent. -/
structure Payload where
  emoji : PartialEmoji
  userId : Nat
  channelId : Nat
  messageId : Nat
deriving DecidableEq, Repr

/-- The discord error types the code handles. In discord.py, NotFound and
Forbidden are both subclasses of HTTPException, so an except clause naming
HTTPException catches all three. -/
inductive DiscordError
  | notFound
  | forbidden
  | httpException
deriving DecidableEq, Repr

/-- Modelled from the spec: the constants CONST.ADD_BOOKMARK,
CONST.REMOVE_BOOKMARK and CONST.EMBED_MAX_DESC_LENGTH come from
tux.utils.constants, which is not part of the source tree; the spec only
says the first two are designated emoji strings and the third a maximum
description length, so they are arbitrary parameters of the model. -/
structure Config where
  ADD_BOOKMARK : Str
  REMOVE_BOOKMARK : Str
  EMBED_MAX_DESC_LENGTH : Nat
deriving DecidableEq, Repr

/-- One field of an embed. -/
structure EmbedField where
  name : Str
  value : Str
  inline : Bool
deriving DecidableEq, Repr

/-- Model of a discord.Embed: title, description and ordered fields. -/
structure Embed where
  title : Str
  description : Str
  fields : List EmbedField
deriving DecidableEq, Repr

/-- Modelled from the spec: EmbedCreator.create_embed (tux.ui.embeds is not
in the source tree) builds a simple display object from the given title
and description. -/
def createEmbed (title description : Str) : Embed :=
  { title := title, description := description, fields := [] }

/-- Embed.add_field appends a field to the embed. -/
def addField (e : Embed) (n v : Str) (inl : Bool) : Embed :=
  { e with fields := e.fields ++ [{ name := n, value := v, inline := inl }] }

/-- Tags identifying which logger.error call fired. -/
inductive LogTag
  | userNotFound
  | userFetchFailed
  | channelNotFound
  | channelFetchFailed
  | messageNotFound
  | messageFetchFailed
  | dmFailed
deriving DecidableEq, Repr

/-- Observable steps of the handler, in the order they are performed. -/
inductive Step
  | classify (accepted : Bool)
  | getUser (uid : Nat)
  | fetchUserCall (uid : Nat)
  | getChannel (cid : Nat)
  | fetchChannelCall (cid : Nat)
  | fetchMessageCall (mid : Nat)
  | buildEmbed
  | sendDM (uid : Nat) (e : Embed)
  | addReaction (mid : Nat) (emojiStr : Str)
  | deleteMessage (mid : Nat)
  | channelSend (cid : Nat) (text : Str)
  | delayedDelete (mid : Nat) (delaySeconds : Nat)
  | logError (t : LogTag)
deriving DecidableEq, Repr

/-- The environment for handling one event: cache contents and the outcome
of each network call (each is consulted at most once per event). -/
structure World where
  botUser : User
  getUser : Nat → Option User
  fetchUser : Nat → Except DiscordError User
  getChannel : Nat → Option Channel
  fetchChannel : Nat → Except DiscordError Channel
  fetchMessage : Nat → Except DiscordError Message
  sendDMOutcome : Except DiscordError Nat
  addReactionOutcome : Except DiscordError Unit
  notifySendOutcome : Except DiscordError Nat
  deleteOutcome : Except DiscordError Unit

/-- Boolean prefix test on character lists. -/
def strPrefixOf : Str → Str → Bool
  | [], _ => true
  | _ :: _, [] => false
  | a :: as, b :: bs => a == b && strPrefixOf as bs

/-- The Python `in` operator on strings: contiguous substring containment. -/
def strContains (needle : Str) : Str → Bool
  | [] => needle.isEmpty
  | c :: rest => strPrefixOf needle (c :: rest) || strContains needle rest

/-- Bookmarks._is_valid_emoji: `emoji.name in valid_list`. -/
def isValidEmoji (emoji : PartialEmoji) (validList : Str) : Bool :=
  strContains emoji.name validList

/-- Python slice s[:k] for a possibly negative bound k. -/
def pyTake (s : Str) (k : Int) : Str :=
  if 0 ≤ k then s.take k.toNat else s.take (s.length - (-k).toNat)

/-- Python "\n".join. -/
def joinNewline : List Str → Str
  | [] => []
  | [s] => s
  | s :: rest => s ++ [Char.ofNat 10] ++ joinNewline rest

/-- Bookmarks._create_bookmark_embed. The Python code mutates
message.content in place when it exceeds the maximum; the model returns
the updated message together with the built embed. -/
def createBookmarkEmbed (cfg : Config) (message : Message) : Message × Embed :=
  let message :=
    if message.content.length > cfg.EMBED_MAX_DESC_LENGTH then
      let newContent :=
        pyTake message.content ((cfg.EMBED_MAX_DESC_LENGTH : Int) - 3) ++ "...".data
      { message with content := newContent }
    else message
  let embed := createEmbed "Message Bookmarked".data ("> ".data ++ message.content)
  let embed := addField embed "Author".data message.author.name false
  let embed := addField embed "Jump to Message".data
      ("[Click Here](".data ++ message.jumpUrl ++ ")".data) false
  let embed :=
    if message.attachments ≠ [] then
      addField embed "Attachments".data
        (joinNewline (message.attachments.map Attachment.url)) false
    else embed
  (message, embed)

/-- Bookmarks._delete_bookmark. Python compares the author to the bot user
with `is not`; object identity is modeled as equality of user values. -/
def deleteBookmark (w : World) (message : Message) (user : User) :
    List Step × Except DiscordError Unit :=
  if message.author ≠ w.botUser then ([], .ok ())
  else
    match w.deleteOutcome with
    | .ok _ => ([.deleteMessage message.id], .ok ())
    | .error e => ([.deleteMessage message.id], .error e)

/-- The notification text sent to the channel when the DM fails. -/
def notifyText (user : User) : Str :=
  user.mention ++
    ", I couldn\x27t send you a DM. Please make sure your DMs are open for bookmarks to work.".data

/-- The except branch of Bookmarks._send_bookmark: log, post the
notification to the channel of the bookmarked message, and schedule its
deletion after 30 seconds. The caught exception is swallowed; a failure of
the notification send itself propagates. -/
def dmFailure (w : World) (user : User) (message : Message)
    (sofar : List Step) : List Step × Except DiscordError Unit :=
  let t := sofar ++ [.logError .dmFailed, .channelSend message.channelId (notifyText user)]
  match w.notifySendOutcome with
  | .ok nid => (t ++ [.delayedDelete nid 30], .ok ())
  | .error e => (t, .error e)

/-- Bookmarks._send_bookmark: DM the embed to the user, then react to the
delivered DM with CONST.REMOVE_BOOKMARK. Since every modeled discord error
is an HTTPException in discord.py, the except clause catches any failure
of either call. -/
def sendBookmark (cfg : Config) (w : World) (user : User) (message : Message)
    (embed : Embed) : List Step × Except DiscordError Unit :=
  match w.sendDMOutcome with
  | .ok dmId =>
    match w.addReactionOutcome with
    | .ok _ =>
        ([.sendDM user.id embed, .addReaction dmId cfg.REMOVE_BOOKMARK], .ok ())
    | .error _ =>
        dmFailure w user message
          [.sendDM user.id embed, .addReaction dmId cfg.REMOVE_BOOKMARK]
  | .error _ =>
    dmFailure w user message [.sendDM user.id embed]

/-- Bookmarks.on_raw_reaction_add: handle one raw reaction-added event,
returning the trace of observable steps and either a normal return or an
uncaught exception. -/
def onRawReactionAdd (cfg : Config) (w : World) (p : Payload) :
    List Step × Except DiscordError Unit :=
  if ¬ isValidEmoji p.emoji (cfg.ADD_BOOKMARK ++ cfg.REMOVE_BOOKMARK) then
    ([.classify false], .ok ())
  else
    let t0 : List Step := [.classify true, .getUser p.userId]
    match w.getUser p.userId with
    | none =>
      let t1 := t0 ++ [.fetchUserCall p.userId]
      match w.fetchUser p.userId with
      | .ok _ => (t1, .ok ())
      | .error .notFound => (t1 ++ [.logError .userNotFound], .ok ())
      | .error _ => (t1 ++ [.logError .userFetchFailed], .ok ())
    | some user =>
      let t1 := t0 ++ [.getChannel p.channelId]
      match w.getChannel p.channelId with
      | none =>
        let t2 := t1 ++ [.fetchChannelCall p.channelId]
        match w.fetchChannel p.channelId with
        | .ok _ => (t2, .ok ())
        | .error .notFound => (t2 ++ [.logError .channelNotFound], .ok ())
        | .error _ => (t2 ++ [.logError .channelFetchFailed], .ok ())
      | some _channel =>
        let t2 := t1 ++ [.fetchMessageCall p.messageId]
        match w.fetchMessage p.messageId with
        | .error .notFound => (t2 ++ [.logError .messageNotFound], .ok ())
        | .error _ => (t2 ++ [.logError .messageFetchFailed], .ok ())
        | .ok message =>
          if isValidEmoji p.emoji cfg.ADD_BOOKMARK then
            let me := createBookmarkEmbed cfg message
            let t3 := t2 ++ [.buildEmbed]
            let r := sendBookmark cfg w user me.1 me.2
            (t3 ++ r.1, r.2)
          else if isValidEmoji p.emoji cfg.REMOVE_BOOKMARK ∧ user ≠ w.botUser then
            let r := deleteBookmark w message user
            (t2 ++ r.1, r.2)
          else (t2, .ok ())

/-! ### Concrete example data for witnesses and counterexamples -/

def exBot : User := ⟨1, "tux".data, "<@1>".data⟩

def exUser : User := ⟨2, "alice".data, "<@2>".data⟩

def exMessage : Message := ⟨7, "hello".data, exBot, "jump".data, [], 5⟩

def exCfg : Config := ⟨"ab".data, "cd".data, 100⟩

def exWorld : World where
  botUser := exBot
  getUser := fun uid => if uid = 2 then some exUser else none
  fetchUser := fun _ => .ok exUser
  getChannel := fun cid => if cid = 5 then some ⟨5⟩ else none
  fetchChannel := fun _ => .ok ⟨5⟩
  fetchMessage := fun mid => if mid = 7 then .ok exMessage else .error .notFound
  sendDMOutcome := .ok 20
  addReactionOutcome := .ok ()
  notifySendOutcome := .ok 21
  deleteOutcome := .ok ()

def exPayloadAdd : Payload := ⟨⟨"a".data⟩, 2, 5, 7⟩

def exPayloadRemove : Payload := ⟨⟨"cd".data⟩, 2, 5, 7⟩

def exPayloadBoundary : Payload := ⟨⟨"bc".data⟩, 2, 5, 7⟩

/-- A world in which no user is cached. -/
def exWorldMiss : World := { exWorld with getUser := fun _ => none }

/-- An add-emoji payload whose reacting user is not in the cache. -/
def exPayloadAddUncached : Payload := ⟨⟨"a".data⟩, 3, 5, 7⟩

/-- A world in which the reacting user resolves to the bot itself. -/
def exWorldBotReacts : World :=
  { exWorld with getUser := fun uid => if uid = 1 then some exBot else none }

/-- A remove-emoji payload whose reacting user is the bot. -/
def exPayloadRemoveByBot : Payload := ⟨⟨"cd".data⟩, 1, 5, 7⟩

/-! ### Counting network calls -/

/-- Counts user fetch network calls. -/
def isFetchUserStep : Step → Bool
  | .fetchUserCall _ => true
  | _ => false

/-- Counts channel fetch network calls. -/
def isFetchChannelStep : Step → Bool
  | .fetchChannelCall _ => true
  | _ => false

/-- Counts message fetch network calls. -/
def isFetchMessageStep : Step → Bool
  | .fetchMessageCall _ => true
  | _ => false

/-- Counts direct-message send network calls. -/
def isSendDMStep : Step → Bool
  | .sendDM _ _ => true
  | _ => false

/-- Counts message deletions, immediate or scheduled. -/
def isDeleteStep : Step → Bool
  | .deleteMessage _ => true
  | .delayedDelete _ _ => true
  | _ => false

/-! ### Properties of the substring check -/

theorem strPrefixOf_iff (a b : Str) : strPrefixOf a b = true ↔ ∃ t, b = a ++ t := by
  induction a generalizing b with
  | nil => simp [strPrefixOf]
  | cons x xs ih =>
    cases b with
    | nil => simp [strPrefixOf]
    | cons y ys =>
      simp only [strPrefixOf, Bool.and_eq_true, beq_iff_eq, ih, List.cons_append,
        List.cons.injEq]
      constructor
      · rintro ⟨rfl, t, rfl⟩
        exact ⟨t, rfl, rfl⟩
      · rintro ⟨t, rfl, rfl⟩
        exact ⟨rfl, t, rfl⟩

theorem strContains_iff (n h : Str) :
    strContains n h = true ↔ ∃ pre post, h = pre ++ n ++ post := by
  induction h with
  | nil =>
    simp only [strContains, List.isEmpty_iff]
    constructor
    · rintro rfl
      exact ⟨[], [], rfl⟩
    · rintro ⟨pre, post, hh⟩
      rcases List.append_eq_nil.mp hh.symm with ⟨h1, h2⟩
      exact (List.append_eq_nil.mp h1).2
  | cons c rest ih =>
    simp only [strContains, Bool.or_eq_true, strPrefixOf_iff, ih]
    constructor
    · rintro (⟨t, hh⟩ | ⟨pre, post, rfl⟩)
      · exact ⟨[], t, by simp [hh]⟩
      · exact ⟨c :: pre, post, by simp⟩
    · rintro ⟨pre, post, hh⟩
      cases pre with
      | nil => exact Or.inl ⟨post, by simpa using hh⟩
      | cons d pre =>
        rw [List.cons_append, List.cons_append] at hh
        obtain ⟨rfl, hrest⟩ := List.cons.inj hh
        exact Or.inr ⟨pre, post, by simpa using hrest⟩

theorem strContains_append_left (n a b : Str) (h : strContains n a = true) :
    strContains n (a ++ b) = true := by
  rw [strContains_iff] at h ⊢
  obtain ⟨pre, post, rfl⟩ := h
  exact ⟨pre, post ++ b, by simp⟩

theorem strContains_append_right (n a b : Str) (h : strContains n b = true) :
    strContains n (a ++ b) = true := by
  rw [strContains_iff] at h ⊢
  obtain ⟨pre, post, rfl⟩ := h
  exact ⟨a ++ pre, post, by simp⟩

/-! ### Properties of embed creation -/

theorem createBookmarkEmbed_description (cfg : Config) (message : Message) :
    (createBookmarkEmbed cfg message).2.description =
      "> ".data ++ (createBookmarkEmbed cfg message).1.content := by
  unfold createBookmarkEmbed
  dsimp only
  split <;> dsimp only [createEmbed, addField] <;> split <;> rfl

theorem createBookmarkEmbed_content_short (cfg : Config) (message : Message)
    (h : message.content.length ≤ cfg.EMBED_MAX_DESC_LENGTH) :
    (createBookmarkEmbed cfg message).1.content = message.content := by
  unfold createBookmarkEmbed
  dsimp only
  rw [if_neg (by omega)]

theorem createBookmarkEmbed_content_long (cfg : Config) (message : Message)
    (h3 : 3 ≤ cfg.EMBED_MAX_DESC_LENGTH)
    (h : message.content.length > cfg.EMBED_MAX_DESC_LENGTH) :
    (createBookmarkEmbed cfg message).1.content =
      message.content.take (cfg.EMBED_MAX_DESC_LENGTH - 3) ++ "...".data ∧
    (createBookmarkEmbed cfg message).1.content.length = cfg.EMBED_MAX_DESC_LENGTH := by
  unfold createBookmarkEmbed
  dsimp only
  rw [if_pos h]
  have hk : (0:Int) ≤ (cfg.EMBED_MAX_DESC_LENGTH : Int) - 3 := by omega
  have hkt : ((cfg.EMBED_MAX_DESC_LENGTH : Int) - 3).toNat =
      cfg.EMBED_MAX_DESC_LENGTH - 3 := by omega
  unfold pyTake
  rw [if_pos hk, hkt]
  refine ⟨rfl, ?_⟩
  have hlen : ("...".data : Str).length = 3 := by decide
  simp only [List.length_append, List.length_take, hlen]
  omega

/-! ### Claim theorems -/

/-- C5: emoji classification is a lookup into the configured emoji string:
_is_valid_emoji accepts an emoji for a given list exactly when the emoji
name occurs as a contiguous (possibly proper) substring of that string,
and in particular some emoji whose name is a strict substring of a
configured emoji string is accepted. -/
theorem c5_classification_is_substring_lookup :
    (∀ (e : PartialEmoji) (l : Str),
        isValidEmoji e l = true ↔ ∃ pre post, l = pre ++ e.name ++ post) ∧
    (∃ (cfg : Config) (e : PartialEmoji),
        e.name ≠ cfg.ADD_BOOKMARK ∧
        (∃ pre post, cfg.ADD_BOOKMARK = pre ++ e.name ++ post) ∧
        isValidEmoji e cfg.ADD_BOOKMARK = true) := by
  refine ⟨fun e l => strContains_iff e.name l, ?_⟩
  refine ⟨⟨"ab".data, "cd".data, 100⟩, ⟨"a".data⟩, by decide, ⟨[], "b".data, by decide⟩, by decide⟩

/-- C9: _create_bookmark_embed replaces content longer than
EMBED_MAX_DESC_LENGTH by its first EMBED_MAX_DESC_LENGTH - 3 characters
followed by "...", giving exactly EMBED_MAX_DESC_LENGTH characters; it
leaves shorter content unchanged, and the embed description is "> "
prepended to the resulting content. (The in-place mutation of the Python
message object is modeled by the updated message returned in the first
component.) Stated for any configured maximum of at least 3, which holds
of the real Discord description limit. -/
theorem c9_truncation (cfg : Config) (message : Message)
    (h3 : 3 ≤ cfg.EMBED_MAX_DESC_LENGTH) :
    (message.content.length > cfg.EMBED_MAX_DESC_LENGTH →
      (createBookmarkEmbed cfg message).1.content =
        message.content.take (cfg.EMBED_MAX_DESC_LENGTH - 3) ++ "...".data ∧
      (createBookmarkEmbed cfg message).1.content.length = cfg.EMBED_MAX_DESC_LENGTH) ∧
    (message.content.length ≤ cfg.EMBED_MAX_DESC_LENGTH →
      (createBookmarkEmbed cfg message).1.content = message.content) ∧
    (createBookmarkEmbed cfg message).2.description =
      "> ".data ++ (createBookmarkEmbed cfg message).1.content :=
  ⟨fun h => createBookmarkEmbed_content_long cfg message h3 h,
   fun h => createBookmarkEmbed_content_short cfg message h,
   createBookmarkEmbed_description cfg message⟩

theorem c9_truncation_witness :
    (exMessage.content.length > exCfg.EMBED_MAX_DESC_LENGTH →
      (createBookmarkEmbed exCfg exMessage).1.content =
        exMessage.content.take (exCfg.EMBED_MAX_DESC_LENGTH - 3) ++ "...".data ∧
      (createBookmarkEmbed exCfg exMessage).1.content.length = exCfg.EMBED_MAX_DESC_LENGTH) ∧
    (exMessage.content.length ≤ exCfg.EMBED_MAX_DESC_LENGTH →
      (createBookmarkEmbed exCfg exMessage).1.content = exMessage.content) ∧
    (createBookmarkEmbed exCfg exMessage).2.description =
      "> ".data ++ (createBookmarkEmbed exCfg exMessage).1.content :=
  c9_truncation exCfg exMessage (by decide)

/-- C1 (code bug): for a valid add emoji with the reacting user absent from
the cache, a successful fetch_user still ends the handler: the trace stops
right after the fetch (no channel lookup, no message fetch, no DM), while
the identical event with the user cached goes on to build the embed and
dispatch the DM. The `return` in on_raw_reaction_add sits outside the
except blocks, so it runs even when the fetch succeeds. -/
theorem c1_successful_user_fetch_still_returns :
    onRawReactionAdd exCfg exWorldMiss exPayloadAddUncached =
      ([.classify true, .getUser 3, .fetchUserCall 3], .ok ()) ∧
    Step.buildEmbed ∉ (onRawReactionAdd exCfg exWorldMiss exPayloadAddUncached).1 ∧
    Step.buildEmbed ∈ (onRawReactionAdd exCfg exWorld exPayloadAdd).1 ∧
    Step.sendDM exUser.id (createBookmarkEmbed exCfg exMessage).2 ∈
      (onRawReactionAdd exCfg exWorld exPayloadAdd).1 := by
  refine ⟨rfl, by decide, by decide, by decide⟩

/-- C4 counterexample: the emoji name "bc" is neither an add-bookmark nor a
remove-bookmark emoji for the configuration ADD_BOOKMARK = "ab",
REMOVE_BOOKMARK = "cd", yet it passes the combined check (its name spans
the boundary of the concatenation "abcd"), so the handler performs the
user, channel and message lookups instead of returning immediately. -/
theorem c4_counterexample :
    isValidEmoji exPayloadBoundary.emoji exCfg.ADD_BOOKMARK = false ∧
    isValidEmoji exPayloadBoundary.emoji exCfg.REMOVE_BOOKMARK = false ∧
    onRawReactionAdd exCfg exWorld exPayloadBoundary =
      ([.classify true, .getUser 2, .getChannel 5, .fetchMessageCall 7], .ok ()) := by
  refine ⟨by decide, by decide, rfl⟩

/-- C4 (amended): the handler returns immediately, with no user, channel or
message lookup, no DM and no deletion, exactly for the events whose emoji
name is not a substring of the concatenation ADD_BOOKMARK ++
REMOVE_BOOKMARK; such an emoji is in particular neither an add-bookmark
nor a remove-bookmark emoji, but the converse can fail for names spanning
the concatenation boundary. -/
theorem c4_invalid_emoji_returns_immediately (cfg : Config) (w : World) (p : Payload)
    (h : isValidEmoji p.emoji (cfg.ADD_BOOKMARK ++ cfg.REMOVE_BOOKMARK) = false) :
    isValidEmoji p.emoji cfg.ADD_BOOKMARK = false ∧
    isValidEmoji p.emoji cfg.REMOVE_BOOKMARK = false ∧
    onRawReactionAdd cfg w p = ([.classify false], .ok ()) := by
  refine ⟨?_, ?_, ?_⟩
  · by_contra hadd
    rw [Bool.not_eq_false] at hadd
    rw [isValidEmoji] at h hadd
    rw [strContains_append_left _ _ _ hadd] at h
    exact Bool.true_eq_false.mp h
  · by_contra hrem
    rw [Bool.not_eq_false] at hrem
    rw [isValidEmoji] at h hrem
    rw [strContains_append_right _ _ _ hrem] at h
    exact Bool.true_eq_false.mp h
  · unfold onRawReactionAdd
    rw [if_pos (by simp [h])]

theorem c4_invalid_emoji_witness :
    isValidEmoji (PartialEmoji.mk "zz".data) exCfg.ADD_BOOKMARK = false ∧
    isValidEmoji (PartialEmoji.mk "zz".data) exCfg.REMOVE_BOOKMARK = false ∧
    onRawReactionAdd exCfg exWorld ⟨⟨"zz".data⟩, 2, 5, 7⟩ =
      ([.classify false], .ok ()) :=
  c4_invalid_emoji_returns_immediately exCfg exWorld ⟨⟨"zz".data⟩, 2, 5, 7⟩ (by decide)

/-- Every run of _send_bookmark starts by attempting the DM send. -/
theorem sendBookmark_trace_head (cfg : Config) (w : World) (user : User)
    (message : Message) (embed : Embed) :
    ∃ tail, (sendBookmark cfg w user message embed).1 =
      Step.sendDM user.id embed :: tail := by
  unfold sendBookmark dmFailure
  rcases w.sendDMOutcome with e | dmId
  · rcases w.notifySendOutcome with e2 | nid <;> exact ⟨_, rfl⟩
  · rcases w.addReactionOutcome with e | u
    · rcases w.notifySendOutcome with e2 | nid <;> exact ⟨_, rfl⟩
    · exact ⟨_, rfl⟩

/-- C2: for an add-bookmark emoji with the reacting user and the channel
cached and a successful message fetch, the handler builds the bookmark
embed and sends it to the reacting user as a direct message; the embed
description carries the (possibly clipped) message content, which equals
the original content whenever it fits within the configured maximum. -/
theorem c2_add_bookmark_sends_dm (cfg : Config) (w : World) (p : Payload)
    (user : User) (ch : Channel) (message : Message)
    (hu : w.getUser p.userId = some user)
    (hc : w.getChannel p.channelId = some ch)
    (hm : w.fetchMessage p.messageId = .ok message)
    (hadd : isValidEmoji p.emoji cfg.ADD_BOOKMARK = true) :
    Step.buildEmbed ∈ (onRawReactionAdd cfg w p).1 ∧
    Step.sendDM user.id (createBookmarkEmbed cfg message).2 ∈ (onRawReactionAdd cfg w p).1 ∧
    (createBookmarkEmbed cfg message).2.description =
      "> ".data ++ (createBookmarkEmbed cfg message).1.content ∧
    (message.content.length ≤ cfg.EMBED_MAX_DESC_LENGTH →
      (createBookmarkEmbed cfg message).1.content = message.content) := by
  have hvalid : isValidEmoji p.emoji (cfg.ADD_BOOKMARK ++ cfg.REMOVE_BOOKMARK) = true :=
    strContains_append_left _ _ _ hadd
  obtain ⟨tail, htail⟩ :=
    sendBookmark_trace_head cfg w user (createBookmarkEmbed cfg message).1
      (createBookmarkEmbed cfg message).2
  unfold onRawReactionAdd
  rw [if_neg (by simp [hvalid]), hu, hc, hm]
  dsimp only
  rw [if_pos hadd]
  refine ⟨by simp, ?_, createBookmarkEmbed_description cfg message,
    fun h => createBookmarkEmbed_content_short cfg message h⟩
  dsimp only
  rw [htail]
  simp

theorem c2_add_bookmark_witness :
    Step.buildEmbed ∈ (onRawReactionAdd exCfg exWorld exPayloadAdd).1 ∧
    Step.sendDM exUser.id (createBookmarkEmbed exCfg exMessage).2 ∈
      (onRawReactionAdd exCfg exWorld exPayloadAdd).1 ∧
    (createBookmarkEmbed exCfg exMessage).2.description =
      "> ".data ++ (createBookmarkEmbed exCfg exMessage).1.content ∧
    (exMessage.content.length ≤ exCfg.EMBED_MAX_DESC_LENGTH →
      (createBookmarkEmbed exCfg exMessage).1.content = exMessage.content) :=
  c2_add_bookmark_sends_dm exCfg exWorld exPayloadAdd exUser ⟨5⟩ exMessage rfl rfl rfl
    (by decide)

/-- C3 counterexample: a remove-bookmark reaction on a bot-authored message
whose reacting user resolves to the bot itself: user, channel and message
are all successfully obtained and the message is authored by the bot, yet
the handler performs no deletion (the `user is not self.bot.user` guard
skips the remove branch). -/
theorem c3_counterexample :
    isValidEmoji exPayloadRemoveByBot.emoji exCfg.REMOVE_BOOKMARK = true ∧
    exWorldBotReacts.getUser exPayloadRemoveByBot.userId = some exBot ∧
    exWorldBotReacts.fetchMessage exPayloadRemoveByBot.messageId = .ok exMessage ∧
    exMessage.author = exWorldBotReacts.botUser ∧
    onRawReactionAdd exCfg exWorldBotReacts exPayloadRemoveByBot =
      ([.classify true, .getUser 1, .getChannel 5, .fetchMessageCall 7], .ok ()) := by
  refine ⟨by decide, rfl, rfl, rfl, rfl⟩

/-- C3 (amended): for a remove-bookmark reaction (user, channel and message
successfully obtained) where the emoji is not also an add-bookmark emoji
and the reacting user is not the bot itself, the referenced message is
deleted exactly when it was authored by the bot; in particular it is left
untouched whenever authored by anyone else. -/
theorem c3_remove_deletes_iff_bot_authored (cfg : Config) (w : World) (p : Payload)
    (user : User) (ch : Channel) (message : Message)
    (hu : w.getUser p.userId = some user)
    (hc : w.getChannel p.channelId = some ch)
    (hm : w.fetchMessage p.messageId = .ok message)
    (hrem : isValidEmoji p.emoji cfg.REMOVE_BOOKMARK = true)
    (hnotadd : isValidEmoji p.emoji cfg.ADD_BOOKMARK = false)
    (hnotbot : user ≠ w.botUser) :
    Step.deleteMessage message.id ∈ (onRawReactionAdd cfg w p).1 ↔
      message.author = w.botUser := by
  have hvalid : isValidEmoji p.emoji (cfg.ADD_BOOKMARK ++ cfg.REMOVE_BOOKMARK) = true :=
    strContains_append_right _ _ _ hrem
  unfold onRawReactionAdd
  rw [if_neg (by simp [hvalid]), hu, hc, hm]
  dsimp only
  rw [if_neg (by simp [hnotadd]), if_pos ⟨hrem, hnotbot⟩]
  unfold deleteBookmark
  by_cases hauth : message.author = w.botUser
  · rw [if_neg (by simp [hauth])]
    rcases w.deleteOutcome with e | u <;> simp [hauth]
  · rw [if_pos hauth]
    simp [hauth]

theorem c3_remove_deletes_witness :
    Step.deleteMessage exMessage.id ∈
        (onRawReactionAdd exCfg exWorld exPayloadRemove).1 ↔
      exMessage.author = exWorld.botUser :=
  c3_remove_deletes_iff_bot_authored exCfg exWorld exPayloadRemove exUser ⟨5⟩ exMessage
    rfl rfl rfl (by decide) (by decide) (by decide)

/-- C6: when the message fetch fails with any of NotFound, Forbidden or
HTTPException, the handler logs the error and returns normally: the whole
trace is the lookups followed by one log entry, so no exception
propagates, no DM is sent and no message is deleted. -/
theorem c6_message_fetch_error_handled (cfg : Config) (w : World) (p : Payload)
    (user : User) (ch : Channel) (e : DiscordError)
    (hvalid : isValidEmoji p.emoji (cfg.ADD_BOOKMARK ++ cfg.REMOVE_BOOKMARK) = true)
    (hu : w.getUser p.userId = some user)
    (hc : w.getChannel p.channelId = some ch)
    (hm : w.fetchMessage p.messageId = .error e) :
    ∃ tag, onRawReactionAdd cfg w p =
      ([.classify true, .getUser p.userId, .getChannel p.channelId,
        .fetchMessageCall p.messageId, .logError tag], .ok ()) := by
  unfold onRawReactionAdd
  rw [if_neg (by simp [hvalid]), hu, hc, hm]
  cases e
  · exact ⟨.messageNotFound, rfl⟩
  · exact ⟨.messageFetchFailed, rfl⟩
  · exact ⟨.messageFetchFailed, rfl⟩

theorem c6_message_fetch_error_witness :
    ∃ tag, onRawReactionAdd exCfg { exWorld with fetchMessage := fun _ => .error .forbidden }
        exPayloadAdd =
      ([.classify true, .getUser 2, .getChannel 5, .fetchMessageCall 7,
        .logError tag], .ok ()) :=
  c6_message_fetch_error_handled exCfg
    { exWorld with fetchMessage := fun _ => .error .forbidden }
    exPayloadAdd exUser ⟨5⟩ .forbidden (by decide) rfl rfl rfl

/-- C10: if the DM send, or the add-reaction on the delivered DM, fails
(all handled discord errors being HTTPExceptions), _send_bookmark swallows
the exception: provided the notification post in the original channel goes
through, it returns normally, the posted text starts with the user
mention, and the notification is scheduled for deletion after 30 seconds. -/
theorem c10_dm_failure_notifies (cfg : Config) (w : World) (user : User)
    (message : Message) (embed : Embed) (nid : Nat)
    (hfail : (∃ e, w.sendDMOutcome = Except.error e) ∨
      ((∃ d, w.sendDMOutcome = Except.ok d) ∧ ∃ e, w.addReactionOutcome = Except.error e))
    (hnotify : w.notifySendOutcome = Except.ok nid) :
    (sendBookmark cfg w user message embed).2 = .ok () ∧
    Step.channelSend message.channelId (notifyText user) ∈
      (sendBookmark cfg w user message embed).1 ∧
    Step.delayedDelete nid 30 ∈ (sendBookmark cfg w user message embed).1 ∧
    ∃ rest, notifyText user = user.mention ++ rest := by
  unfold sendBookmark dmFailure
  rcases hfail with ⟨e, he⟩ | ⟨⟨d, hd⟩, e, he⟩
  · rw [he, hnotify]
    exact ⟨rfl, by simp, by simp, ⟨_, rfl⟩⟩
  · rw [hd, he, hnotify]
    exact ⟨rfl, by simp, by simp, ⟨_, rfl⟩⟩

theorem c10_dm_failure_witness :
    (sendBookmark exCfg { exWorld with sendDMOutcome := .error .forbidden }
        exUser exMessage (createBookmarkEmbed exCfg exMessage).2).2 = .ok () ∧
    Step.channelSend exMessage.channelId (notifyText exUser) ∈
      (sendBookmark exCfg { exWorld with sendDMOutcome := .error .forbidden }
        exUser exMessage (createBookmarkEmbed exCfg exMessage).2).1 ∧
    Step.delayedDelete 21 30 ∈
      (sendBookmark exCfg { exWorld with sendDMOutcome := .error .forbidden }
        exUser exMessage (createBookmarkEmbed exCfg exMessage).2).1 ∧
    ∃ rest, notifyText exUser = exUser.mention ++ rest :=
  c10_dm_failure_notifies exCfg { exWorld with sendDMOutcome := .error .forbidden }
    exUser exMessage (createBookmarkEmbed exCfg exMessage).2 21
    (Or.inl ⟨.forbidden, rfl⟩) rfl

/-- _delete_bookmark never sends a direct message. -/
theorem deleteBookmark_no_sendDM (w : World) (message : Message) (user : User)
    (uid : Nat) (e : Embed) :
    Step.sendDM uid e ∉ (deleteBookmark w message user).1 := by
  unfold deleteBookmark
  split
  · simp
  · rcases w.deleteOutcome with er | u <;> simp

/-- Either no DM is ever sent while handling the event, or the trace starts
with exactly the classification, the cached user and channel lookups, the
message fetch, the embed construction and the DM send, in that order. -/
theorem onRawReactionAdd_sendDM_cases (cfg : Config) (w : World) (p : Payload) :
    (∀ uid e, Step.sendDM uid e ∉ (onRawReactionAdd cfg w p).1) ∨
    ∃ uid embed tail,
      (onRawReactionAdd cfg w p).1 =
        [.classify true, .getUser p.userId, .getChannel p.channelId,
         .fetchMessageCall p.messageId, .buildEmbed, .sendDM uid embed] ++ tail := by
  unfold onRawReactionAdd
  by_cases hv : isValidEmoji p.emoji (cfg.ADD_BOOKMARK ++ cfg.REMOVE_BOOKMARK) = true
  · rw [if_neg (by simp [hv])]
    rcases w.getUser p.userId with _ | user
    · dsimp only
      left
      intro uid e
      rcases w.fetchUser p.userId with er | u
      · cases er <;> simp
      · simp
    · dsimp only
      rcases w.getChannel p.channelId with _ | ch
      · dsimp only
        left
        intro uid e
        rcases w.fetchChannel p.channelId with er | c
        · cases er <;> simp
        · simp
      · dsimp only
        rcases w.fetchMessage p.messageId with er | message
        · left
          intro uid e
          cases er <;> simp
        · dsimp only
          by_cases hadd : isValidEmoji p.emoji cfg.ADD_BOOKMARK = true
          · rw [if_pos hadd]
            right
            obtain ⟨tail, htail⟩ := sendBookmark_trace_head cfg w user
              (createBookmarkEmbed cfg message).1 (createBookmarkEmbed cfg message).2
            refine ⟨user.id, (createBookmarkEmbed cfg message).2, tail, ?_⟩
            dsimp only
            rw [htail]
            simp
          · rw [if_neg hadd]
            left
            intro uid e
            split
            · simp only [List.mem_append, List.mem_cons, List.mem_singleton]
              rintro ((h | h | h | h | h) | h) <;>
                first
                  | exact Step.noConfusion h
                  | exact absurd h (by simp)
                  | exact deleteBookmark_no_sendDM w message user uid e h
            · simp
  · rw [if_pos hv]
    left
    intro uid e
    simp

/-- C7: whenever the handler reaches the direct-message dispatch, its
observable steps up to that point are, in order: emoji classification,
user resolution, channel resolution, message fetch, embed construction,
DM send; no later step precedes an earlier one. -/
theorem c7_dispatch_order (cfg : Config) (w : World) (p : Payload)
    (h : ∃ uid e, Step.sendDM uid e ∈ (onRawReactionAdd cfg w p).1) :
    ∃ uid embed tail,
      (onRawReactionAdd cfg w p).1 =
        [.classify true, .getUser p.userId, .getChannel p.channelId,
         .fetchMessageCall p.messageId, .buildEmbed, .sendDM uid embed] ++ tail := by
  rcases onRawReactionAdd_sendDM_cases cfg w p with hno | hyes
  · obtain ⟨uid, e, hmem⟩ := h
    exact absurd hmem (hno uid e)
  · exact hyes

theorem c7_dispatch_order_witness :
    ∃ uid embed tail,
      (onRawReactionAdd exCfg exWorld exPayloadAdd).1 =
        [.classify true, .getUser 2, .getChannel 5, .fetchMessageCall 7,
         .buildEmbed, .sendDM uid embed] ++ tail :=
  c7_dispatch_order exCfg exWorld exPayloadAdd
    ⟨exUser.id, (createBookmarkEmbed exCfg exMessage).2, by decide⟩

theorem sendBookmark_counts (cfg : Config) (w : World) (user : User)
    (message : Message) (embed : Embed) :
    ((sendBookmark cfg w user message embed).1.countP isFetchUserStep = 0) ∧
    ((sendBookmark cfg w user message embed).1.countP isFetchChannelStep = 0) ∧
    ((sendBookmark cfg w user message embed).1.countP isFetchMessageStep = 0) ∧
    ((sendBookmark cfg w user message embed).1.countP isSendDMStep = 1) ∧
    ((sendBookmark cfg w user message embed).1.countP isDeleteStep ≤ 1) := by
  unfold sendBookmark dmFailure
  rcases w.sendDMOutcome with e | d
  · rcases w.notifySendOutcome with e2 | n <;>
      simp [List.countP_cons, List.countP_append, isFetchUserStep, isFetchChannelStep,
        isFetchMessageStep, isSendDMStep, isDeleteStep]
  · rcases w.addReactionOutcome with e | u
    · rcases w.notifySendOutcome with e2 | n <;>
        simp [List.countP_cons, List.countP_append, isFetchUserStep, isFetchChannelStep,
          isFetchMessageStep, isSendDMStep, isDeleteStep]
    · simp [List.countP_cons, isFetchUserStep, isFetchChannelStep,
        isFetchMessageStep, isSendDMStep, isDeleteStep]

theorem deleteBookmark_counts (w : World) (message : Message) (user : User) :
    ((deleteBookmark w message user).1.countP isFetchUserStep = 0) ∧
    ((deleteBookmark w message user).1.countP isFetchChannelStep = 0) ∧
    ((deleteBookmark w message user).1.countP isFetchMessageStep = 0) ∧
    ((deleteBookmark w message user).1.countP isSendDMStep = 0) ∧
    ((deleteBookmark w message user).1.countP isDeleteStep ≤ 1) := by
  unfold deleteBookmark
  split
  · simp
  · rcases w.deleteOutcome with er | u <;>
      simp [List.countP_cons, isFetchUserStep, isFetchChannelStep,
        isFetchMessageStep, isSendDMStep, isDeleteStep]

/-- C8: while handling one event, each network call (fetch_user,
fetch_channel, fetch_message, the DM send, and message deletion whether
immediate or scheduled) appears at most once in the trace, so no failed
call is ever retried. -/
theorem c8_each_call_at_most_once (cfg : Config) (w : World) (p : Payload) :
    ((onRawReactionAdd cfg w p).1.countP isFetchUserStep ≤ 1) ∧
    ((onRawReactionAdd cfg w p).1.countP isFetchChannelStep ≤ 1) ∧
    ((onRawReactionAdd cfg w p).1.countP isFetchMessageStep ≤ 1) ∧
    ((onRawReactionAdd cfg w p).1.countP isSendDMStep ≤ 1) ∧
    ((onRawReactionAdd cfg w p).1.countP isDeleteStep ≤ 1) := by
  unfold onRawReactionAdd
  by_cases hv : isValidEmoji p.emoji (cfg.ADD_BOOKMARK ++ cfg.REMOVE_BOOKMARK) = true
  · rw [if_neg (by simp [hv])]
    rcases w.getUser p.userId with _ | user
    · dsimp only
      rcases w.fetchUser p.userId with er | u
      · cases er <;>
          simp [List.countP_cons, List.countP_append, isFetchUserStep, isFetchChannelStep,
            isFetchMessageStep, isSendDMStep, isDeleteStep]
      · simp [List.countP_cons, isFetchUserStep, isFetchChannelStep,
          isFetchMessageStep, isSendDMStep, isDeleteStep]
    · dsimp only
      rcases w.getChannel p.channelId with _ | ch
      · dsimp only
        rcases w.fetchChannel p.channelId with er | c
        · cases er <;>
            simp [List.countP_cons, List.countP_append, isFetchUserStep, isFetchChannelStep,
              isFetchMessageStep, isSendDMStep, isDeleteStep]
        · simp [List.countP_cons, isFetchUserStep, isFetchChannelStep,
            isFetchMessageStep, isSendDMStep, isDeleteStep]
      · dsimp only
        rcases w.fetchMessage p.messageId with er | message
        · cases er <;>
            simp [List.countP_cons, List.countP_append, isFetchUserStep, isFetchChannelStep,
              isFetchMessageStep, isSendDMStep, isDeleteStep]
        · dsimp only
          obtain ⟨s1, s2, s3, s4, s5⟩ := sendBookmark_counts cfg w user
            (createBookmarkEmbed cfg message).1 (createBookmarkEmbed cfg message).2
          obtain ⟨d1, d2, d3, d4, d5⟩ := deleteBookmark_counts w message user
          by_cases hadd : isValidEmoji p.emoji cfg.ADD_BOOKMARK = true
          · rw [if_pos hadd]
            dsimp only
            simp [List.countP_cons, List.countP_append, isFetchUserStep,
              isFetchChannelStep, isFetchMessageStep, isSendDMStep,
              isDeleteStep, s1, s2, s3, s4]
            omega
          · rw [if_neg hadd]
            split
            · simp [List.countP_cons, List.countP_append, isFetchUserStep,
                isFetchChannelStep, isFetchMessageStep, isSendDMStep,
                isDeleteStep, d1, d2, d3, d4]
              omega
            · simp [List.countP_cons, isFetchUserStep, isFetchChannelStep,
                isFetchMessageStep, isSendDMStep, isDeleteStep]
  · rw [if_pos hv]
    simp [List.countP_cons, isFetchUserStep, isFetchChannelStep,
      isFetchMessageStep, isSendDMStep, isDeleteStep]

end TuxBookmarks
